import Mathlib

/-!
# Task list client (`static/main.js`)

A shallow embedding of the three asynchronous operations of the browser client
(`fetchTasks`, `addTask`, `generateTasks`) as state-passing functions over an
explicit world: the part of the document the script touches, and the ordered
log of its observable effects (requests issued, alerts shown, the generate
button being disabled and enabled).  The remote service is a parameter: a
function from the request to what `fetch` settles to.
-/

namespace TaskClient

/-! ## Data model -/

/-- One element of the array the service returns, as the script reads it:
`t.title`, `t.description` (absent, `null` or a string) and `t.completed`. -/
structure Task where
  title : String
  description : Option String
  completed : Bool
deriving DecidableEq

/-- JavaScript `v || d` where `v` is absent (`undefined` / `null`) or a string:
the empty string is falsy, every other string is truthy. -/
def orDefault : Option String → String → String
  | some s, d => if s = "" then d else s
  | none, d => d

/-- The template literal of `fetchTasks`:
`${t.title} — ${t.description || ""} ${t.completed ? "✅" : ""}`. -/
def renderLine (t : Task) : String :=
  t.title ++ " — " ++ orDefault t.description "" ++ " " ++ (if t.completed then "✅" else "")

/-- A value inside an object handed to `JSON.stringify`. -/
inductive JVal
  | null
  | num (i : Int)
  | str (s : String)
deriving DecidableEq

/-- The arguments of one `fetch` call; `body` is the object that is passed
through `JSON.stringify`, field by field, and `none` when no body is given. -/
structure Request where
  method : String
  url : String
  headers : List (String × String)
  body : Option (List (String × JVal))
deriving DecidableEq

/-- What `await res.json()` yields when the body parses, restricted to the
shapes of the HTTP contract: `null`, an array of tasks, or an object that may
carry a `detail` string (and has neither `length` nor `forEach`). -/
inductive Payload
  | null
  | tasks (ts : List Task)
  | object (detail : Option String)
deriving DecidableEq

/-- What `await fetch(...)` settles to: a rejection (network failure) with the
message of its error, or a response with its HTTP status and the result of
`res.json()` (`Except.error m` when parsing rejects with message `m`). -/
inductive FetchResult
  | rejected (message : String)
  | response (status : Nat) (body : Except String Payload)

/-- The remote service together with the network. -/
abbrev Network := Request → FetchResult

/-- The `Response.ok` getter: status in the range 200..299. -/
def responseOk (status : Nat) : Bool := decide (200 ≤ status) && decide (status ≤ 299)

/-- The errors that can be thrown while the script runs. -/
inductive JsError
  | thrown (message : String)       -- `new Error(message)`
  | fetchFailed (message : String)  -- rejection of `fetch`
  | jsonFailed (message : String)   -- rejection of `res.json()`
  | nullProperty (prop : String)    -- property read on `null`
  | notFunction (expr : String)     -- call of a value that is not a function
deriving DecidableEq

/-- The `message` property of an error (engine wording for the two engine
generated `TypeError`s). -/
def JsError.message : JsError → String
  | .thrown m => m
  | .fetchFailed m => m
  | .jsonFailed m => m
  | .nullProperty p => "Cannot read properties of null (reading '" ++ p ++ "')"
  | .notFunction e => e ++ " is not a function"

/-- The elements the script looks up with `document.getElementById`. -/
structure Dom where
  taskList : List String   -- `textContent` of the `li` children of `#taskList`
  title : String           -- `#title.value`
  desc : String            -- `#desc.value`
  genPrompt : String       -- `#genPrompt.value`
  genCount : String        -- `#genCount.value`
  genBtnDisabled : Bool    -- `#genBtn.disabled`
deriving DecidableEq

/-- Observable effects, in the order they happen. -/
inductive Event
  | request (r : Request)
  | alert (msg : String)
  | setDisabled (b : Bool)
deriving DecidableEq

/-- The document, the effects so far, and the number of `fetchTasks()` calls
that were started without `await` and whose response has not been handled. -/
structure World where
  dom : Dom
  log : List Event
  pending : Nat
deriving DecidableEq

/-- Record one effect. -/
def World.emit (w : World) (e : Event) : World :=
  World.mk w.dom (w.log ++ [e]) w.pending

/-- Statement `list.innerHTML = ""`. -/
def clearList (w : World) : World :=
  World.mk (Dom.mk [] w.dom.title w.dom.desc w.dom.genPrompt w.dom.genCount w.dom.genBtnDisabled)
    w.log w.pending

/-- Statements `li.textContent = text; list.appendChild(li)`. -/
def appendChild (w : World) (text : String) : World :=
  World.mk (Dom.mk (w.dom.taskList ++ [text]) w.dom.title w.dom.desc w.dom.genPrompt
    w.dom.genCount w.dom.genBtnDisabled) w.log w.pending

/-- Statement `btn.disabled = b`. -/
def setDisabled (b : Bool) (w : World) : World :=
  World.mk (Dom.mk w.dom.taskList w.dom.title w.dom.desc w.dom.genPrompt w.dom.genCount b)
    (w.log ++ [Event.setDisabled b]) w.pending

/-! ## `fetchTasks` -/

/-- Call `fetch("/api/tasks")`. -/
def listRequest : Request := Request.mk "GET" "/api/tasks" [] none

/-- The part of `fetchTasks` that runs synchronously: the request is issued. -/
def fetchTasksStart (w : World) : World := w.emit (Event.request listRequest)

/-- The rest of `fetchTasks`, once `fetch` has settled to `r`: parse the body,
empty the list, append one `li` per task.  `res.ok` is never read. -/
def fetchTasksResume (r : FetchResult) (w : World) : Except JsError Unit × World :=
  match r with
  | .rejected m => (.error (.fetchFailed m), w)
  | .response _ (.error m) => (.error (.jsonFailed m), w)
  | .response _ (.ok tasks) =>
    let w1 := clearList w
    match tasks with
    | .null => (.error (.nullProperty "forEach"), w1)
    | .object _ => (.error (.notFunction "tasks.forEach"), w1)
    | .tasks ts => (.ok (), ts.foldl (fun acc t => appendChild acc (renderLine t)) w1)

/-- An awaited run of `fetchTasks` from call to settlement. -/
def fetchTasks (net : Network) (w : World) : Except JsError Unit × World :=
  fetchTasksResume (net listRequest) (fetchTasksStart w)

/-- Statement `fetchTasks();` without `await`: the request goes out now, the
rest runs after the caller has finished. -/
def fetchTasksDetached (w : World) : World :=
  World.mk w.dom (w.log ++ [Event.request listRequest]) (w.pending + 1)

/-- Run the remainder of `n` detached `fetchTasks` calls; a rejection of such a
call has no handler and changes nothing further. -/
def settleN : Nat → Network → World → World
  | 0, _, w => w
  | n + 1, net, w => settleN n net (fetchTasksResume (net listRequest) w).2

/-- Let every detached `fetchTasks` call finish. -/
def settle (net : Network) (w : World) : World :=
  let w1 := settleN w.pending net w
  World.mk w1.dom w1.log 0

/-! ## `addTask` -/

/-- Statement `if (!arg) arg = field.value`, for an argument that is absent or
a string. -/
def resolve (arg : Option String) (field : String) : String :=
  match arg with
  | some s => if s = "" then field else s
  | none => field

/-- The create request: `POST /api/tasks` with body
`JSON.stringify({ title, description: desc })`. -/
def createRequest (title desc : String) : Request :=
  Request.mk "POST" "/api/tasks" [("Content-Type", "application/json")]
    (some [("title", JVal.str title), ("description", JVal.str desc)])

/-- Function `addTask(title, desc)` up to the settlement of its promise. -/
def addTask (net : Network) (title desc : Option String) (w : World) :
    Except JsError Unit × World :=
  let title1 := resolve title w.dom.title
  let desc1 := resolve desc w.dom.desc
  if title1 = "" then (.ok (), w.emit (Event.alert "Title required"))
  else
    let w1 := w.emit (Event.request (createRequest title1 desc1))
    match net (createRequest title1 desc1) with
    | .rejected m => (.error (.fetchFailed m), w1)
    | .response _ _ => (.ok (), fetchTasksDetached w1)

/-! ## `generateTasks` -/

/-- White space as `parseInt` skips it (WhiteSpace and LineTerminator). -/
def isWhiteSpace (c : Char) : Bool :=
  let n := c.toNat
  n = 9 || n = 10 || n = 11 || n = 12 || n = 13 || n = 32 || n = 160 || n = 5760
    || (decide (8192 ≤ n) && decide (n ≤ 8202)) || n = 8232 || n = 8233 || n = 8239
    || n = 8287 || n = 12288 || n = 65279

/-- Value of a digit character in the given radix, if it is one. -/
def digitValue (radix : Nat) (c : Char) : Option Nat :=
  let n := c.toNat
  let v : Option Nat :=
    if 48 ≤ n ∧ n ≤ 57 then some (n - 48)
    else if 97 ≤ n ∧ n ≤ 122 then some (n - 87)
    else if 65 ≤ n ∧ n ≤ 90 then some (n - 55)
    else none
  match v with
  | some d => if d < radix then some d else none
  | none => none

/-- The longest run of digits at the front of the input. -/
def takeDigits (radix : Nat) : List Char → List Nat
  | [] => []
  | c :: cs =>
    match digitValue radix c with
    | some d => d :: takeDigits radix cs
    | none => []

/-- Sign of the numeral and the characters after it. -/
def splitSign : List Char → Bool × List Char
  | '-' :: cs => (true, cs)
  | '+' :: cs => (false, cs)
  | cs => (false, cs)

/-- Radix of the numeral (16 after `0x` / `0X`, else 10) and the characters
after the radix mark. -/
def splitRadix : List Char → Nat × List Char
  | '0' :: 'x' :: cs => (16, cs)
  | '0' :: 'X' :: cs => (16, cs)
  | cs => (10, cs)

/-- A JavaScript number, as far as `parseInt` can produce one: `NaN`, an
infinity, or an integer that a double represents exactly (`-0` is `0`). -/
inductive JsNumber
  | nan
  | infinite (negative : Bool)
  | finite (i : Int)
deriving DecidableEq

/-- The weight `2^e` of the lowest bit that a 53-bit significand keeps of `m`:
doubled once for every halving needed to bring `m` below 2^53.  The first
argument bounds the number of halvings and is given as `m` itself. -/
def excessScale : Nat → Nat → Nat
  | 0, _ => 1
  | fuel + 1, m => if m < 2 ^ 53 then 1 else 2 * excessScale fuel (m / 2)

/-- The Number value of the natural number `m`: round to nearest with a 53-bit
significand, ties to even; `none` is `Infinity` (the rounded value reaches
2^1024). -/
def toDouble (m : Nat) : Option Nat :=
  let s := excessScale m m
  let q := m / s
  let r := m % s
  let up : Bool := decide (s < 2 * r) || (decide (2 * r = s) && decide (q % 2 = 1))
  let v := (if up then q + 1 else q) * s
  if v < (2 ^ 256) ^ 4 then some v else none

/-- Builtin `parseInt(s)` with no radix argument: skip white space, read a
sign, read a `0x` / `0X` mark, take the longest run of digits (`NaN` when it is
empty) and convert the signed integer to a Number.  (The standard lets an
engine replace decimal digits after the 20th by 0 before converting; the exact
integer is converted here.) -/
def parseInt (s : String) : JsNumber :=
  let cs := s.toList.dropWhile isWhiteSpace
  let sc := splitSign cs
  let rc := splitRadix sc.2
  match takeDigits rc.1 rc.2 with
  | [] => JsNumber.nan
  | ds =>
    match toDouble (ds.foldl (fun acc d => acc * rc.1 + d) 0) with
    | none => JsNumber.infinite sc.1
    | some v => JsNumber.finite (if sc.1 then -(v : Int) else (v : Int))

/-- A number as `JSON.stringify` writes it: `NaN` and the infinities become
`null`, a finite number is written as itself. -/
def jsonNumber : JsNumber → JVal
  | .finite i => JVal.num i
  | .infinite _ => JVal.null
  | .nan => JVal.null

/-- The autogenerate request: `POST /api/tasks/autogen` with body
`JSON.stringify({ prompt, n: count })`. -/
def autogenRequest (prompt : String) (count : JsNumber) : Request :=
  Request.mk "POST" "/api/tasks/autogen" [("Content-Type", "application/json")]
    (some [("prompt", JVal.str prompt), ("n", jsonNumber count)])

/-- Expression `tasks.detail || "Failed"`. -/
def detailOrFailed : Payload → Except JsError String
  | .null => .error (.nullProperty "detail")
  | .tasks _ => .ok "Failed"
  | .object d => .ok (orDefault d "Failed")

/-- Interpolation `${tasks.length}`. -/
def lengthText : Payload → Except JsError String
  | .null => .error (.nullProperty "length")
  | .tasks ts => .ok (toString ts.length)
  | .object _ => .ok "undefined"

/-- The `try` block of `generateTasks`. -/
def generateTasksTry (net : Network) (prompt : String) (count : JsNumber) (w : World) :
    Except JsError Unit × World :=
  let w1 := w.emit (Event.request (autogenRequest prompt count))
  match net (autogenRequest prompt count) with
  | .rejected m => (.error (.fetchFailed m), w1)
  | .response _ (.error m) => (.error (.jsonFailed m), w1)
  | .response status (.ok tasks) =>
    if !responseOk status then
      match detailOrFailed tasks with
      | .error e => (.error e, w1)
      | .ok m => (.error (.thrown m), w1)
    else
      let w2 := fetchTasksDetached w1
      match lengthText tasks with
      | .error e => (.error e, w2)
      | .ok n => (.ok (), w2.emit (Event.alert ("Generated " ++ n ++ " tasks successfully!")))

/-- The `catch` block of `generateTasks`. -/
def generateTasksCatch : Except JsError Unit × World → World
  | (.error e, w) => w.emit (Event.alert ("Autogen failed: " ++ e.message))
  | (.ok _, w) => w

/-- Function `generateTasks()` up to the settlement of its promise (which never
rejects: every error of the `try` block is caught). -/
def generateTasks (net : Network) (w : World) : World :=
  let prompt := w.dom.genPrompt
  let count := parseInt w.dom.genCount
  let w0 := setDisabled true w
  let w1 := generateTasksCatch (generateTasksTry net prompt count w0)
  setDisabled false w1

/-! ## Traces -/

/-- The effects recorded between world `w` and a later world `w1`. -/
def eventsSince (w w1 : World) : List Event := w1.log.drop w.log.length

/-- The `title` field of the object sent as request body, if there is one. -/
def bodyTitle (q : Request) : Option JVal :=
  match q.body with
  | some fields => fields.lookup "title"
  | none => none

/-! ## Facts about `fetchTasks` -/

theorem foldl_appendChild_dom (ts : List Task) (w : World) :
    (ts.foldl (fun acc t => appendChild acc (renderLine t)) w).dom.taskList
      = w.dom.taskList ++ ts.map renderLine := by
  induction ts generalizing w with
  | nil => simp
  | cons t ts ih =>
    rw [List.foldl_cons, ih]
    simp [appendChild]

/-- C1: the line the rendering step of `fetchTasks` produces for a task is its
title, then " — ", then its description (the empty string when the description
is absent or empty), then one space, then the marker "✅" exactly when the task
is completed; the two scenario tasks render as "Buy milk — 2% " and
"Done task —  ✅". -/
theorem renderLine_format (t : Task) (status : Nat) (w : World) :
    (fetchTasksResume (FetchResult.response status (.ok (.tasks [t]))) w).2.dom.taskList
        = [t.title ++ " — " ++ t.description.getD "" ++ " "
            ++ (if t.completed then "✅" else "")]
      ∧ renderLine (Task.mk "Buy milk" (some "2%") false) = "Buy milk — 2% "
      ∧ renderLine (Task.mk "Done task" none true) = "Done task —  ✅" := by
  refine ⟨?_, by decide, by decide⟩
  simp only [fetchTasksResume, foldl_appendChild_dom, clearList, List.nil_append, List.map_cons,
    List.map_nil, List.cons.injEq, and_true]
  unfold renderLine
  cases hd : t.description with
  | none => simp [orDefault]
  | some d =>
    by_cases h : d = ""
    · simp [orDefault, h]
    · simp [orDefault, h]

/-- C2: whatever the list element held before, when the service answers the
list request with an array of tasks, `fetchTasks` returns normally and the list
then holds exactly one line per returned task, in the order returned. -/
theorem fetchTasks_replaces_list (net : Network) (w : World) (status : Nat) (ts : List Task)
    (h : net listRequest = FetchResult.response status (.ok (.tasks ts))) :
    (fetchTasks net w).1 = .ok ()
      ∧ (fetchTasks net w).2.dom.taskList = ts.map renderLine
      ∧ (fetchTasks net w).2.dom.taskList.length = ts.length := by
  simp [fetchTasks, fetchTasksResume, h, foldl_appendChild_dom, clearList]

/-- Witness for C2: a list holding a stale entry is replaced by the two tasks
returned. -/
theorem fetchTasks_replaces_list_witness :
    (fetchTasks
        (fun _ => FetchResult.response 200
          (.ok (.tasks [Task.mk "a" (some "b") false, Task.mk "c" none true])))
        (World.mk (Dom.mk ["stale — x "] "" "" "" "" false) [] 0)).2.dom.taskList
      = ["a — b ", "c —  ✅"] := by
  have h := fetchTasks_replaces_list
    (fun _ => FetchResult.response 200
      (.ok (.tasks [Task.mk "a" (some "b") false, Task.mk "c" none true])))
    (World.mk (Dom.mk ["stale — x "] "" "" "" "" false) [] 0) 200
    [Task.mk "a" (some "b") false, Task.mk "c" none true] rfl
  rw [h.2.1]
  decide

/-- C8: answered with status 500 and an array body, `fetchTasks` raises nothing
and renders the body over the previous list; answered with status 500 and an
object body it empties the previous list before failing. -/
theorem fetchTasks_ignores_status :
    fetchTasks
        (fun _ => FetchResult.response 500 (.ok (.tasks [Task.mk "ghost" none false])))
        (World.mk (Dom.mk ["kept — "] "" "" "" "" false) [] 0)
      = (.ok (), World.mk (Dom.mk ["ghost —  "] "" "" "" "" false)
          [Event.request listRequest] 0)
    ∧ fetchTasks
        (fun _ => FetchResult.response 500 (.ok (.object (some "Internal Server Error"))))
        (World.mk (Dom.mk ["kept — "] "" "" "" "" false) [] 0)
      = (.error (JsError.notFunction "tasks.forEach"),
          World.mk (Dom.mk [] "" "" "" "" false) [Event.request listRequest] 0) := by
  constructor <;> rfl

/-! ## Facts about `addTask` -/

theorem eventsSince_append (w w1 : World) (evs : List Event) (h : w1.log = w.log ++ evs) :
    eventsSince w w1 = evs := by
  simp [eventsSince, h]

/-- C3 (as stated, refuted): a title of one space is white space only, yet
`addTask(" ", "x")` posts it and refreshes; and `addTask("", "x")` posts the
title found in the form field. -/
theorem addTask_blank_title_sends :
    " ".toList.all isWhiteSpace = true
      ∧ addTask (fun _ => FetchResult.response 201 (.ok (.object none))) (some " ") (some "x")
          (World.mk (Dom.mk [] "" "" "" "" false) [] 0)
        = (.ok (), World.mk (Dom.mk [] "" "" "" "" false)
            [Event.request (createRequest " " "x"), Event.request listRequest] 1)
      ∧ addTask (fun _ => FetchResult.response 201 (.ok (.object none))) (some "") (some "x")
          (World.mk (Dom.mk [] "Buy milk" "" "" "" false) [] 0)
        = (.ok (), World.mk (Dom.mk [] "Buy milk" "" "" "" false)
            [Event.request (createRequest "Buy milk" "x"), Event.request listRequest] 1) := by
  refine ⟨by decide, rfl, rfl⟩

/-- C3 (amended): when the title argument is absent or empty and the title
form field is empty as well, `addTask` returns normally after the single effect
`alert("Title required")`: no request is issued and no refresh is started. -/
theorem addTask_empty_title_no_request (net : Network) (title desc : Option String)
    (w : World) (harg : title = none ∨ title = some "") (hfield : w.dom.title = "") :
    addTask net title desc w = (.ok (), w.emit (Event.alert "Title required"))
      ∧ eventsSince w (addTask net title desc w).2 = [Event.alert "Title required"]
      ∧ (addTask net title desc w).2.pending = w.pending := by
  have hres : resolve title w.dom.title = "" := by
    rcases harg with h | h <;> simp [h, resolve, hfield]
  have hrun : addTask net title desc w = (.ok (), w.emit (Event.alert "Title required")) := by
    simp [addTask, hres]
  refine ⟨hrun, ?_, ?_⟩
  · rw [hrun]
    exact eventsSince_append _ _ _ rfl
  · rw [hrun]
    rfl

/-- Witness for C3 (amended): `addTask("", "x")` with an empty title field. -/
theorem addTask_empty_title_no_request_witness :
    eventsSince (World.mk (Dom.mk ["kept"] "" "d" "" "" false) [] 0)
        (addTask (fun _ => FetchResult.rejected "offline") (some "") (some "x")
          (World.mk (Dom.mk ["kept"] "" "d" "" "" false) [] 0)).2
      = [Event.alert "Title required"] :=
  (addTask_empty_title_no_request (fun _ => FetchResult.rejected "offline") (some "") (some "x")
    (World.mk (Dom.mk ["kept"] "" "d" "" "" false) [] 0) (Or.inr rfl) rfl).2.1

/-- C4: in every call of `addTask`, each request it sends to `POST /api/tasks`
carries a non-empty string as `title`; and when the title resolved from the
argument and the form field is empty, it sends no request and starts no
refresh. -/
theorem addTask_request_title_nonempty (net : Network) (title desc : Option String)
    (w : World) :
    (∀ q, Event.request q ∈ eventsSince w (addTask net title desc w).2 →
        q.method = "POST" → q.url = "/api/tasks" →
        ∃ t, bodyTitle q = some (JVal.str t) ∧ t ≠ "")
      ∧ (resolve title w.dom.title = "" →
          (∀ q, Event.request q ∉ eventsSince w (addTask net title desc w).2)
            ∧ (addTask net title desc w).2.pending = w.pending) := by
  by_cases hres : resolve title w.dom.title = ""
  · have hrun : addTask net title desc w = (.ok (), w.emit (Event.alert "Title required")) := by
      simp [addTask, hres]
    have hev : eventsSince w (addTask net title desc w).2 = [Event.alert "Title required"] := by
      rw [hrun]
      exact eventsSince_append _ _ _ rfl
    refine ⟨?_, fun _ => ⟨?_, ?_⟩⟩
    · intro q hq
      simp [hev] at hq
    · intro q hq
      simp [hev] at hq
    · rw [hrun]
      rfl
  · refine ⟨?_, fun h => absurd h hres⟩
    intro q hq hm _
    cases hnet : net (createRequest (resolve title w.dom.title) (resolve desc w.dom.desc)) with
    | rejected m =>
      have hev : eventsSince w (addTask net title desc w).2
          = [Event.request
              (createRequest (resolve title w.dom.title) (resolve desc w.dom.desc))] := by
        apply eventsSince_append
        simp [addTask, hres, hnet, World.emit]
      rw [hev] at hq
      simp at hq
      subst hq
      exact ⟨resolve title w.dom.title, rfl, hres⟩
    | response status body =>
      have hev : eventsSince w (addTask net title desc w).2
          = [Event.request
              (createRequest (resolve title w.dom.title) (resolve desc w.dom.desc)),
             Event.request listRequest] := by
        apply eventsSince_append
        simp [addTask, hres, hnet, World.emit, fetchTasksDetached]
      rw [hev] at hq
      simp at hq
      rcases hq with hq | hq
      · subst hq
        exact ⟨resolve title w.dom.title, rfl, hres⟩
      · subst hq
        simp [listRequest] at hm

/-- Witness for C4: the request of `addTask("a", "b")` carries a non-empty
title. -/
theorem addTask_request_title_nonempty_witness :
    ∃ t, bodyTitle (createRequest "a" "b") = some (JVal.str t) ∧ t ≠ "" :=
  (addTask_request_title_nonempty (fun _ => FetchResult.rejected "offline") (some "a") (some "b")
    (World.mk (Dom.mk [] "" "" "" "" false) [] 0)).1 (createRequest "a" "b")
    (by decide) rfl rfl

/-- C10: when the create request is answered with status 500, `addTask` raises
nothing and starts the refresh all the same, whose answer is then rendered over
the previous list. -/
theorem addTask_ignores_status :
    addTask
        (fun q => if q.method = "GET"
          then FetchResult.response 200 (.ok (.tasks [Task.mk "other" none false]))
          else FetchResult.response 500 (.ok (.object (some "boom"))))
        (some "a") (some "b") (World.mk (Dom.mk ["kept — "] "" "" "" "" false) [] 0)
      = (.ok (), World.mk (Dom.mk ["kept — "] "" "" "" "" false)
          [Event.request (createRequest "a" "b"), Event.request listRequest] 1)
    ∧ (settle
        (fun q => if q.method = "GET"
          then FetchResult.response 200 (.ok (.tasks [Task.mk "other" none false]))
          else FetchResult.response 500 (.ok (.object (some "boom"))))
        (addTask
          (fun q => if q.method = "GET"
            then FetchResult.response 200 (.ok (.tasks [Task.mk "other" none false]))
            else FetchResult.response 500 (.ok (.object (some "boom"))))
          (some "a") (some "b")
          (World.mk (Dom.mk ["kept — "] "" "" "" "" false) [] 0)).2).dom.taskList
      = ["other —  "] := by
  constructor <;> rfl

/-! ## Facts about `parseInt` -/

theorem excessScale_small (m : Nat) (h : m < 2 ^ 53) : excessScale m m = 1 := by
  cases m with
  | zero => rfl
  | succ f =>
    show (if f + 1 < 2 ^ 53 then 1 else 2 * excessScale f ((f + 1) / 2)) = 1
    rw [if_pos h]

/-- The bound on the number of halvings is never reached: the significand that
is kept is below 2^53. -/
theorem excessScale_adequate (fuel m : Nat) (h : m ≤ fuel) :
    m / excessScale fuel m < 2 ^ 53 := by
  induction fuel generalizing m with
  | zero =>
    have : m = 0 := by omega
    subst this
    simp [excessScale]
  | succ f ih =>
    by_cases hm : m < 2 ^ 53
    · show m / (if m < 2 ^ 53 then 1 else 2 * excessScale f (m / 2)) < 2 ^ 53
      rw [if_pos hm, Nat.div_one]
      exact hm
    · have hrec : m / 2 ≤ f := by omega
      show m / (if m < 2 ^ 53 then 1 else 2 * excessScale f (m / 2)) < 2 ^ 53
      rw [if_neg hm, ← Nat.div_div_eq_div_mul]
      exact ih (m / 2) hrec

theorem toDouble_small (m : Nat) (h : m < 2 ^ 53) : toDouble m = some m := by
  have hbig : m < (2 ^ 256) ^ 4 := Nat.lt_of_lt_of_le h (by norm_num)
  unfold toDouble
  rw [excessScale_small m h]
  have hno : (decide (1 < 2 * 0) || (decide (2 * 0 = 1) && decide (m % 2 = 1))) = false := by
    simp
  simp only [Nat.div_one, Nat.mod_one, Nat.mul_one, hno, Bool.false_eq_true, if_false, hbig,
    if_true]

theorem digitValue_digitChar (d : Nat) (h : d < 10) :
    digitValue 10 (Nat.digitChar d) = some d := by
  interval_cases d <;> rfl

theorem takeDigits_toDigitsCore (fuel n : Nat) (acc : List Char) (h : n < fuel) :
    ∃ ds : List Nat, ds ≠ []
      ∧ takeDigits 10 (Nat.toDigitsCore 10 fuel n acc) = ds ++ takeDigits 10 acc
      ∧ ds.foldl (fun a d => a * 10 + d) 0 = n := by
  induction fuel generalizing n acc with
  | zero => omega
  | succ f ih =>
    have hd : digitValue 10 (Nat.digitChar (n % 10)) = some (n % 10) :=
      digitValue_digitChar _ (Nat.mod_lt _ (by decide))
    by_cases hq : n / 10 = 0
    · refine ⟨[n % 10], by simp, ?_, ?_⟩
      · simp [Nat.toDigitsCore, hq, takeDigits, hd]
      · simp
        omega
    · obtain ⟨ds, _, htake, hval⟩ := ih (n / 10) (Nat.digitChar (n % 10) :: acc) (by omega)
      refine ⟨ds ++ [n % 10], by simp, ?_, ?_⟩
      · simp [Nat.toDigitsCore, hq, htake, takeDigits, hd]
      · simp [List.foldl_append, hval]
        omega

theorem toDigitsCore_digits (fuel n : Nat) (acc : List Char)
    (hacc : ∀ c ∈ acc, digitValue 10 c ≠ none) :
    ∀ c ∈ Nat.toDigitsCore 10 fuel n acc, digitValue 10 c ≠ none := by
  induction fuel generalizing n acc with
  | zero => simpa [Nat.toDigitsCore] using hacc
  | succ f ih =>
    have hd : digitValue 10 (Nat.digitChar (n % 10)) = some (n % 10) :=
      digitValue_digitChar _ (Nat.mod_lt _ (by decide))
    have hacc1 : ∀ c ∈ Nat.digitChar (n % 10) :: acc, digitValue 10 c ≠ none := by
      intro c hc
      rcases List.mem_cons.mp hc with h | h
      · rw [h, hd]
        simp
      · exact hacc c h
    by_cases hq : n / 10 = 0
    · simpa [Nat.toDigitsCore, hq] using hacc1
    · simpa [Nat.toDigitsCore, hq] using ih (n / 10) _ hacc1

theorem splitRadix_digits (cs : List Char) (h : ∀ c ∈ cs, digitValue 10 c ≠ none) :
    splitRadix cs = (10, cs) := by
  unfold splitRadix
  split
  · exact absurd (by decide) (h 'x' (by simp))
  · exact absurd (by decide) (h 'X' (by simp))
  · rfl

/-- The decimal numeral of `-k`, for a natural number `k` below 2^53, parses to
`-k`. -/
theorem parseInt_neg_decimal (k : Nat) (h : k < 2 ^ 53) :
    parseInt ("-" ++ toString k) = JsNumber.finite (-(k : Int)) := by
  obtain ⟨ds, hne, htake, hval⟩ := takeDigits_toDigitsCore (k + 1) k [] (by omega)
  have hdig := toDigitsCore_digits (k + 1) k [] (by simp)
  have hlist : ("-" ++ toString k).toList = '-' :: Nat.toDigitsCore 10 (k + 1) k [] := by
    simp [toString, Nat.repr, Nat.toDigits, List.asString]
  have hws : isWhiteSpace '-' = false := by decide
  unfold parseInt
  simp only [hlist, List.dropWhile_cons, hws]
  simp [splitSign, splitRadix_digits _ hdig, htake, takeDigits]
  cases ds with
  | nil => exact absurd rfl hne
  | cons d ds =>
    rw [hval, toDouble_small k h]

set_option maxRecDepth 100000 in
/-- Above 2^53 the parsed count is the nearest double (ties to even), and a
numeral too large for a double is `Infinity`, which is sent as `null`. -/
theorem parseInt_rounds :
    parseInt "9007199254740993" = JsNumber.finite 9007199254740992
      ∧ parseInt "9007199254740995" = JsNumber.finite 9007199254740996
      ∧ parseInt (String.mk (List.replicate 400 '9')) = JsNumber.infinite false
      ∧ jsonNumber (parseInt (String.mk (List.replicate 400 '9'))) = JVal.null
      ∧ parseInt "abc" = JsNumber.nan
      ∧ parseInt " 0x1F" = JsNumber.finite 31 := by
  refine ⟨by decide, by decide, by decide, by decide, by decide, by decide⟩

/-! ## Facts about `generateTasks` -/

/-- Shape of every run of the `try` and `catch` blocks: the document is left as
it was, the log grows by the autogenerate request followed only by alerts and
the refresh request. -/
theorem generateTasksCatch_shape (net : Network) (prompt : String) (count : JsNumber)
    (w : World) :
    ∃ mid : List Event,
      (generateTasksCatch (generateTasksTry net prompt count w)).log
          = w.log ++ Event.request (autogenRequest prompt count) :: mid
        ∧ (∀ e ∈ mid, (∃ m, e = Event.alert m) ∨ e = Event.request listRequest)
        ∧ (generateTasksCatch (generateTasksTry net prompt count w)).dom = w.dom := by
  unfold generateTasksTry
  cases hnet : net (autogenRequest prompt count) with
  | rejected m =>
    exact ⟨[Event.alert ("Autogen failed: " ++ m)], by
      simp [generateTasksCatch, World.emit, JsError.message]⟩
  | response status body =>
    cases body with
    | error m =>
      exact ⟨[Event.alert ("Autogen failed: " ++ m)], by
        simp [generateTasksCatch, World.emit, JsError.message]⟩
    | ok p =>
      by_cases hok : responseOk status = true
      · cases p with
        | null =>
          exact ⟨[Event.request listRequest,
              Event.alert ("Autogen failed: " ++ (JsError.nullProperty "length").message)], by
            simp [generateTasksCatch, World.emit, hok, lengthText, fetchTasksDetached]⟩
        | tasks ts =>
          exact ⟨[Event.request listRequest,
              Event.alert ("Generated " ++ toString ts.length ++ " tasks successfully!")], by
            simp [generateTasksCatch, World.emit, hok, lengthText, fetchTasksDetached]⟩
        | object d =>
          exact ⟨[Event.request listRequest,
              Event.alert ("Generated " ++ "undefined" ++ " tasks successfully!")], by
            simp [generateTasksCatch, World.emit, hok, lengthText, fetchTasksDetached]⟩
      · cases p with
        | null =>
          exact ⟨[Event.alert ("Autogen failed: " ++ (JsError.nullProperty "detail").message)], by
            simp [generateTasksCatch, World.emit, hok, detailOrFailed]⟩
        | tasks ts =>
          exact ⟨[Event.alert ("Autogen failed: " ++ "Failed")], by
            simp [generateTasksCatch, World.emit, hok, detailOrFailed, JsError.message]⟩
        | object d =>
          exact ⟨[Event.alert ("Autogen failed: " ++ orDefault d "Failed")], by
            simp [generateTasksCatch, World.emit, hok, detailOrFailed, JsError.message]⟩

/-- C5: in every run of `generateTasks`, whatever the network and the service
answer, the effects are: the button is disabled, then the autogenerate request
is issued, then effects that never touch the button, then the button is
enabled; the button is disabled in the state the `finally` block starts from
and enabled in the final state. -/
theorem generateTasks_busy_guard (net : Network) (w : World) :
    ∃ mid : List Event,
      eventsSince w (generateTasks net w)
          = Event.setDisabled true
              :: Event.request (autogenRequest w.dom.genPrompt (parseInt w.dom.genCount))
              :: (mid ++ [Event.setDisabled false])
        ∧ (∀ b, Event.setDisabled b ∉ mid)
        ∧ (generateTasksCatch (generateTasksTry net w.dom.genPrompt (parseInt w.dom.genCount)
            (setDisabled true w))).dom.genBtnDisabled = true
        ∧ (generateTasks net w).dom.genBtnDisabled = false := by
  obtain ⟨mid, hlog, hmid, hdom⟩ :=
    generateTasksCatch_shape net w.dom.genPrompt (parseInt w.dom.genCount) (setDisabled true w)
  refine ⟨mid, ?_, ?_, ?_, ?_⟩
  · apply eventsSince_append
    have hrun : (generateTasks net w).log
        = (generateTasksCatch (generateTasksTry net w.dom.genPrompt (parseInt w.dom.genCount)
            (setDisabled true w))).log ++ [Event.setDisabled false] := rfl
    have hpre : (setDisabled true w).log = w.log ++ [Event.setDisabled true] := rfl
    rw [hrun, hlog, hpre]
    simp
  · intro b hb
    rcases hmid _ hb with ⟨m, hm⟩ | hm <;> cases hm
  · rw [hdom]
    rfl
  · rfl

/-- C6: when the autogenerate request is answered with a success status and an
array of tasks, `generateTasks` starts a list refresh and then reports the
length of that array: "Generated n tasks successfully!". -/
theorem generateTasks_success_count (net : Network) (w : World) (status : Nat)
    (ts : List Task) (hok : responseOk status = true)
    (hnet : net (autogenRequest w.dom.genPrompt (parseInt w.dom.genCount))
      = FetchResult.response status (.ok (.tasks ts))) :
    eventsSince w (generateTasks net w)
        = [Event.setDisabled true,
           Event.request (autogenRequest w.dom.genPrompt (parseInt w.dom.genCount)),
           Event.request listRequest,
           Event.alert ("Generated " ++ toString ts.length ++ " tasks successfully!"),
           Event.setDisabled false]
      ∧ (generateTasks net w).pending = w.pending + 1 := by
  constructor
  · apply eventsSince_append
    simp [generateTasks, generateTasksTry, generateTasksCatch, setDisabled, World.emit, hnet,
      hok, lengthText, fetchTasksDetached]
  · simp [generateTasks, generateTasksTry, generateTasksCatch, setDisabled, World.emit, hnet,
      hok, lengthText, fetchTasksDetached]

/-- Witness for C6: a 3-element array is reported as 3. -/
theorem generateTasks_success_count_witness :
    eventsSince (World.mk (Dom.mk [] "" "" "write 3 tasks" "3" false) [] 0)
        (generateTasks
          (fun _ => FetchResult.response 200
            (.ok (.tasks [Task.mk "a" none false, Task.mk "b" none false,
              Task.mk "c" none false])))
          (World.mk (Dom.mk [] "" "" "write 3 tasks" "3" false) [] 0))
      = [Event.setDisabled true,
         Event.request (autogenRequest "write 3 tasks" (JsNumber.finite 3)),
         Event.request listRequest,
         Event.alert "Generated 3 tasks successfully!",
         Event.setDisabled false] := by
  have h := generateTasks_success_count
    (fun _ => FetchResult.response 200
      (.ok (.tasks [Task.mk "a" none false, Task.mk "b" none false, Task.mk "c" none false])))
    (World.mk (Dom.mk [] "" "" "write 3 tasks" "3" false) [] 0) 200
    [Task.mk "a" none false, Task.mk "b" none false, Task.mk "c" none false]
    (by decide) rfl
  rw [h.1]
  decide

/-- C7 (as stated, refuted): answered with status 200 and the JSON body `null`,
`generateTasks` starts the list refresh and then reports a failure; and on a
network failure the message shown is the one of the runtime error, not the
generic "Failed". -/
theorem generateTasks_null_body_refreshes :
    eventsSince (World.mk (Dom.mk [] "" "" "p" "3" false) [] 0)
        (generateTasks (fun _ => FetchResult.response 200 (.ok Payload.null))
          (World.mk (Dom.mk [] "" "" "p" "3" false) [] 0))
      = [Event.setDisabled true,
         Event.request (autogenRequest "p" (JsNumber.finite 3)),
         Event.request listRequest,
         Event.alert "Autogen failed: Cannot read properties of null (reading 'length')",
         Event.setDisabled false]
    ∧ (generateTasks (fun _ => FetchResult.response 200 (.ok Payload.null))
          (World.mk (Dom.mk [] "" "" "p" "3" false) [] 0)).pending = 1
    ∧ eventsSince (World.mk (Dom.mk [] "" "" "p" "3" false) [] 0)
        (generateTasks (fun _ => FetchResult.rejected "Load failed")
          (World.mk (Dom.mk [] "" "" "p" "3" false) [] 0))
      = [Event.setDisabled true,
         Event.request (autogenRequest "p" (JsNumber.finite 3)),
         Event.alert "Autogen failed: Load failed",
         Event.setDisabled false] := by
  refine ⟨by decide, by decide, by decide⟩

/-- C7 (amended): for every autogenerate call that fails by a network failure,
an unparsable body or a non-success status, `generateTasks` shows exactly one
alert "Autogen failed: " followed by a message and starts no refresh.  The
message is the `detail` of the response when a non-success response carries a
non-empty one, "Failed" when it carries none (or an empty one, or is an
array), and the message of the error of the runtime when `fetch` or `json`
reject or when the body of a non-success response is `null`. -/
theorem generateTasks_failure_message (net : Network) (w : World) :
    (∀ m, net (autogenRequest w.dom.genPrompt (parseInt w.dom.genCount))
          = FetchResult.rejected m →
        eventsSince w (generateTasks net w)
            = [Event.setDisabled true,
               Event.request (autogenRequest w.dom.genPrompt (parseInt w.dom.genCount)),
               Event.alert ("Autogen failed: " ++ m),
               Event.setDisabled false]
          ∧ (generateTasks net w).pending = w.pending)
      ∧ (∀ status m, net (autogenRequest w.dom.genPrompt (parseInt w.dom.genCount))
          = FetchResult.response status (.error m) →
        eventsSince w (generateTasks net w)
            = [Event.setDisabled true,
               Event.request (autogenRequest w.dom.genPrompt (parseInt w.dom.genCount)),
               Event.alert ("Autogen failed: " ++ m),
               Event.setDisabled false]
          ∧ (generateTasks net w).pending = w.pending)
      ∧ (∀ status d, responseOk status = false → d ≠ "" →
          net (autogenRequest w.dom.genPrompt (parseInt w.dom.genCount))
            = FetchResult.response status (.ok (.object (some d))) →
        eventsSince w (generateTasks net w)
            = [Event.setDisabled true,
               Event.request (autogenRequest w.dom.genPrompt (parseInt w.dom.genCount)),
               Event.alert ("Autogen failed: " ++ d),
               Event.setDisabled false]
          ∧ (generateTasks net w).pending = w.pending)
      ∧ (∀ status p, responseOk status = false →
          (p = Payload.object none ∨ p = Payload.object (some "") ∨ ∃ ts, p = Payload.tasks ts) →
          net (autogenRequest w.dom.genPrompt (parseInt w.dom.genCount))
            = FetchResult.response status (.ok p) →
        eventsSince w (generateTasks net w)
            = [Event.setDisabled true,
               Event.request (autogenRequest w.dom.genPrompt (parseInt w.dom.genCount)),
               Event.alert "Autogen failed: Failed",
               Event.setDisabled false]
          ∧ (generateTasks net w).pending = w.pending)
      ∧ (∀ status, responseOk status = false →
          net (autogenRequest w.dom.genPrompt (parseInt w.dom.genCount))
            = FetchResult.response status (.ok Payload.null) →
        eventsSince w (generateTasks net w)
            = [Event.setDisabled true,
               Event.request (autogenRequest w.dom.genPrompt (parseInt w.dom.genCount)),
               Event.alert "Autogen failed: Cannot read properties of null (reading 'detail')",
               Event.setDisabled false]
          ∧ (generateTasks net w).pending = w.pending)
      ∧ (∀ status p, responseOk status = false →
          net (autogenRequest w.dom.genPrompt (parseInt w.dom.genCount))
            = FetchResult.response status (.ok p) →
        (∃ m, eventsSince w (generateTasks net w)
            = [Event.setDisabled true,
               Event.request (autogenRequest w.dom.genPrompt (parseInt w.dom.genCount)),
               Event.alert ("Autogen failed: " ++ m),
               Event.setDisabled false])
          ∧ (generateTasks net w).pending = w.pending) := by
  refine ⟨?_, ?_, ?_, ?_, ?_, ?_⟩
  · intro m hnet
    constructor
    · apply eventsSince_append
      simp [generateTasks, generateTasksTry, generateTasksCatch, setDisabled, World.emit, hnet,
        JsError.message]
    · simp [generateTasks, generateTasksTry, generateTasksCatch, setDisabled, World.emit, hnet]
  · intro status m hnet
    constructor
    · apply eventsSince_append
      simp [generateTasks, generateTasksTry, generateTasksCatch, setDisabled, World.emit, hnet,
        JsError.message]
    · simp [generateTasks, generateTasksTry, generateTasksCatch, setDisabled, World.emit, hnet]
  · intro status d hok hd hnet
    constructor
    · apply eventsSince_append
      simp [generateTasks, generateTasksTry, generateTasksCatch, setDisabled, World.emit, hnet,
        hok, detailOrFailed, orDefault, hd, JsError.message]
    · simp [generateTasks, generateTasksTry, generateTasksCatch, setDisabled, World.emit, hnet,
        hok, detailOrFailed]
  · intro status p hok hp hnet
    rcases hp with hp | hp | ⟨ts, hp⟩ <;> subst hp
    all_goals
      constructor
      · apply eventsSince_append
        simp [generateTasks, generateTasksTry, generateTasksCatch, setDisabled, World.emit, hnet,
          hok, detailOrFailed, orDefault, JsError.message]
      · simp [generateTasks, generateTasksTry, generateTasksCatch, setDisabled, World.emit, hnet,
          hok, detailOrFailed]
  · intro status hok hnet
    constructor
    · apply eventsSince_append
      simp [generateTasks, generateTasksTry, generateTasksCatch, setDisabled, World.emit, hnet,
        hok, detailOrFailed, JsError.message]
    · simp [generateTasks, generateTasksTry, generateTasksCatch, setDisabled, World.emit, hnet,
        hok, detailOrFailed]
  · intro status p hok hnet
    cases p with
    | null =>
      refine ⟨⟨(JsError.nullProperty "detail").message, ?_⟩, ?_⟩
      · apply eventsSince_append
        simp [generateTasks, generateTasksTry, generateTasksCatch, setDisabled, World.emit, hnet,
          hok, detailOrFailed]
      · simp [generateTasks, generateTasksTry, generateTasksCatch, setDisabled, World.emit, hnet,
          hok, detailOrFailed]
    | tasks ts =>
      refine ⟨⟨"Failed", ?_⟩, ?_⟩
      · apply eventsSince_append
        simp [generateTasks, generateTasksTry, generateTasksCatch, setDisabled, World.emit, hnet,
          hok, detailOrFailed, JsError.message]
      · simp [generateTasks, generateTasksTry, generateTasksCatch, setDisabled, World.emit, hnet,
          hok, detailOrFailed]
    | object d =>
      refine ⟨⟨orDefault d "Failed", ?_⟩, ?_⟩
      · apply eventsSince_append
        simp [generateTasks, generateTasksTry, generateTasksCatch, setDisabled, World.emit, hnet,
          hok, detailOrFailed, JsError.message]
      · simp [generateTasks, generateTasksTry, generateTasksCatch, setDisabled, World.emit, hnet,
          hok, detailOrFailed]

/-- Witness for C7: a 422 answer carrying a detail is reported with that
detail, and no refresh is started. -/
theorem generateTasks_failure_message_witness :
    eventsSince (World.mk (Dom.mk [] "" "" "p" "3" false) [] 0)
        (generateTasks
          (fun _ => FetchResult.response 422 (.ok (.object (some "quota exceeded"))))
          (World.mk (Dom.mk [] "" "" "p" "3" false) [] 0))
      = [Event.setDisabled true,
         Event.request (autogenRequest "p" (parseInt "3")),
         Event.alert ("Autogen failed: " ++ "quota exceeded"),
         Event.setDisabled false] :=
  ((generateTasks_failure_message
      (fun _ => FetchResult.response 422 (.ok (.object (some "quota exceeded"))))
      (World.mk (Dom.mk [] "" "" "p" "3" false) [] 0)).2.2.1
    422 "quota exceeded" (by decide) (by decide) rfl).1

/-- C9 (as stated, refuted): with the count field "0", and with "-3", the
parsed count is not positive, yet the autogenerate request is issued carrying
it, and no validation failure is reported. -/
theorem generateTasks_nonpositive_count_sends :
    parseInt "0" = JsNumber.finite 0
      ∧ eventsSince (World.mk (Dom.mk [] "" "" "p" "0" false) [] 0)
          (generateTasks (fun _ => FetchResult.response 200 (.ok (.tasks [])))
            (World.mk (Dom.mk [] "" "" "p" "0" false) [] 0))
        = [Event.setDisabled true,
           Event.request (autogenRequest "p" (JsNumber.finite 0)),
           Event.request listRequest,
           Event.alert "Generated 0 tasks successfully!",
           Event.setDisabled false]
      ∧ parseInt "-3" = JsNumber.finite (-3)
      ∧ eventsSince (World.mk (Dom.mk [] "" "" "p" "-3" false) [] 0)
          (generateTasks (fun _ => FetchResult.rejected "offline")
            (World.mk (Dom.mk [] "" "" "p" "-3" false) [] 0))
        = [Event.setDisabled true,
           Event.request (autogenRequest "p" (JsNumber.finite (-3))),
           Event.alert "Autogen failed: offline",
           Event.setDisabled false] := by
  refine ⟨by decide, by decide, by decide, by decide⟩

/-- C9 (amended): for every input where the count is a finite number less than
or equal to 0, `generateTasks` validates nothing locally: the first effect after
disabling the button is the autogenerate request, whose body carries that count
as `n`, and the only other request it may issue is the list refresh.  In
particular, with the count field holding the decimal numeral of `-k` for a
natural number `k` below 2^53, the request carries `n = -k`. -/
theorem generateTasks_nonpositive_count_requests (net : Network) (w : World) :
    (∀ i : Int, parseInt w.dom.genCount = JsNumber.finite i → i ≤ 0 →
        ∃ rest : List Event,
          eventsSince w (generateTasks net w)
              = Event.setDisabled true
                  :: Event.request
                      (Request.mk "POST" "/api/tasks/autogen"
                        [("Content-Type", "application/json")]
                        (some [("prompt", JVal.str w.dom.genPrompt), ("n", JVal.num i)]))
                  :: rest
            ∧ (∀ q, Event.request q ∈ rest → q = listRequest))
      ∧ (∀ k : Nat, k < 2 ^ 53 → w.dom.genCount = "-" ++ toString k →
        ∃ rest : List Event,
          eventsSince w (generateTasks net w)
              = Event.setDisabled true
                  :: Event.request
                      (Request.mk "POST" "/api/tasks/autogen"
                        [("Content-Type", "application/json")]
                        (some [("prompt", JVal.str w.dom.genPrompt),
                               ("n", JVal.num (-(k : Int)))]))
                  :: rest
            ∧ (∀ q, Event.request q ∈ rest → q = listRequest)) := by
  have key : ∀ i : Int, parseInt w.dom.genCount = JsNumber.finite i →
      ∃ rest : List Event,
        eventsSince w (generateTasks net w)
            = Event.setDisabled true
                :: Event.request
                    (Request.mk "POST" "/api/tasks/autogen"
                      [("Content-Type", "application/json")]
                      (some [("prompt", JVal.str w.dom.genPrompt), ("n", JVal.num i)]))
                :: rest
          ∧ (∀ q, Event.request q ∈ rest → q = listRequest) := by
    intro i hparse
    obtain ⟨mid, hlog, hmid, _⟩ :=
      generateTasksCatch_shape net w.dom.genPrompt (parseInt w.dom.genCount)
        (setDisabled true w)
    refine ⟨mid ++ [Event.setDisabled false], ?_, ?_⟩
    · apply eventsSince_append
      have hrun : (generateTasks net w).log
          = (generateTasksCatch (generateTasksTry net w.dom.genPrompt
              (parseInt w.dom.genCount) (setDisabled true w))).log
            ++ [Event.setDisabled false] := rfl
      have hpre : (setDisabled true w).log = w.log ++ [Event.setDisabled true] := rfl
      have hreq : autogenRequest w.dom.genPrompt (parseInt w.dom.genCount)
          = Request.mk "POST" "/api/tasks/autogen" [("Content-Type", "application/json")]
              (some [("prompt", JVal.str w.dom.genPrompt), ("n", JVal.num i)]) := by
        rw [hparse]
        rfl
      rw [hrun, hlog, hpre, hreq]
      simp
    · intro q hq
      rw [List.mem_append] at hq
      rcases hq with hq | hq
      · rcases hmid _ hq with ⟨m, hm⟩ | hm
        · cases hm
        · cases hm
          rfl
      · simp at hq
  refine ⟨fun i hparse _ => key i hparse, ?_⟩
  intro k hk hfield
  apply key
  rw [hfield]
  exact parseInt_neg_decimal k hk

/-- Witness for C9 (amended): with the count field "-3" the request carries
`n = -3`. -/
theorem generateTasks_nonpositive_count_requests_witness :
    ∃ rest : List Event,
      eventsSince (World.mk (Dom.mk [] "" "" "p" "-3" false) [] 0)
          (generateTasks (fun _ => FetchResult.rejected "offline")
            (World.mk (Dom.mk [] "" "" "p" "-3" false) [] 0))
        = Event.setDisabled true
            :: Event.request
                (Request.mk "POST" "/api/tasks/autogen"
                  [("Content-Type", "application/json")]
                  (some [("prompt", JVal.str "p"), ("n", JVal.num (-((3 : Nat) : Int)))]))
            :: rest
        ∧ (∀ q, Event.request q ∈ rest → q = listRequest) :=
  (generateTasks_nonpositive_count_requests (fun _ => FetchResult.rejected "offline")
    (World.mk (Dom.mk [] "" "" "p" "-3" false) [] 0)).2 3 (by norm_num) (by decide)

end TaskClient
